import Mathlib

/-!
Shallow embedding of the camera-lifecycle and capture-orchestration layer of
the dartomatic-scorer repository, together with theorems settling the frozen
claims about it.  Every definition is translated from the TypeScript source
(file and line references are given on each definition); the sole exception is
a definition explicitly marked as modelled from the spec's words, used for a
refinement comparison.
-/

namespace Dartomatic

/-! ## Capture orchestrator (src/src/pages/Index.tsx, src/src/components/IntrinsicCalibration.tsx) -/

/-- Fixed per-camera capture target, totalRequiredImages in
IntrinsicCalibration.tsx line 27 and the literal 15 in Index.tsx line 46. -/
def totalRequiredImages : Nat := 15

/-- Wizard-level state held by Index.tsx: the active camera slot, the
per-camera capture counts (length 3 in the source, line 21), and the
isCapturing flag. -/
structure WizardState where
  currentCamera : Nat
  captureCounts : List Nat
  isCapturing : Bool
  deriving Repr, DecidableEq

/-- Initial wizard state from Index.tsx lines 20-22. -/
def initWizard : WizardState :=
  { currentCamera := 0, captureCounts := [0, 0, 0], isCapturing := false }

/-- handleCameraSwitch from Index.tsx lines 33-41: set the active camera and
reset only that slot's capture count to 0. -/
def handleCameraSwitch (index : Nat) (s : WizardState) : WizardState :=
  { s with
    currentCamera := index,
    captureCounts := s.captureCounts.set index 0 }

/-- The update applied to one slot's count at the increment site,
Index.tsx line 46: newCounts[cameraIndex] = Math.min(newCounts[cameraIndex] + 1, 15). -/
def captureIncrement (count : Nat) : Nat :=
  min (count + 1) totalRequiredImages

/-- handleCapture from Index.tsx lines 43-50: clamp-increment the slot's count
and clear the isCapturing flag. -/
def handleCapture (cameraIndex : Nat) (s : WizardState) : WizardState :=
  { s with
    captureCounts :=
      s.captureCounts.set cameraIndex
        (captureIncrement (s.captureCounts.getD cameraIndex 0)),
    isCapturing := false }

/-- Modelled from the spec's words (claim C1 refinement only, not from the
source): a capture attempt at or past the cap is rejected at the increment
site with no change, below the cap it increments. -/
def rejectAtBoundary (count : Nat) : Nat :=
  if totalRequiredImages ≤ count then count else count + 1

/-- Enabled-state of the capture button, IntrinsicCalibration.tsx line 189:
disabled when the stream is not ready, the slot already reached the target, or
a capture is in flight. -/
def captureButtonEnabled (streamReady : Bool) (captureCount : Nat)
    (isCapturing : Bool) : Bool :=
  streamReady && !(decide (totalRequiredImages ≤ captureCount)) && !isCapturing

/-! ## Intrinsic capture pipeline (IntrinsicCalibration.tsx lines 40-131) -/

/-- Shape of the detect_markers response as read by captureAndDetect. -/
structure DetectResponse where
  success : Bool
  detected : Bool
  message : Option String
  deriving Repr, DecidableEq

/-- Outcome of the fetch to /detect_markers in captureAndDetect: the request
may fail at the network layer (fetch rejects), return a non-ok HTTP status, or
deliver a parsed JSON body. -/
inductive FetchOutcome where
  | netFailure (msg : String)
  | httpFailure (status : Nat)
  | resolved (result : DetectResponse)
  deriving Repr, DecidableEq

/-- Environment of one captureAndDetect run: the guards checked on entry
(lines 41, 49, 63) and the backend outcome (lines 77-92). -/
structure IntrinsicEnv where
  isCapturing : Bool
  streamReady : Bool
  devicePresent : Bool
  videoAndCanvasReady : Bool
  ctxReady : Bool
  fetchResult : FetchOutcome
  deriving Repr, DecidableEq

/-- captureAndDetect from IntrinsicCalibration.tsx lines 40-131, projected to
whether onCapture is invoked: the early guard returns, the video/canvas and
context checks, the thrown HTTP and network errors and the thrown
non-detection error all skip onCapture; only the branch at line 94 with
result.success and result.detected reaches the onCapture() call at line 110. -/
def captureAndDetect (e : IntrinsicEnv) : Bool :=
  if e.isCapturing || !e.streamReady || !e.devicePresent then false
  else if !e.videoAndCanvasReady then false
  else if !e.ctxReady then false
  else
    match e.fetchResult with
    | .netFailure _ => false
    | .httpFailure _ => false
    | .resolved r => r.success && r.detected

/-- Net effect of one intrinsic capture attempt on the slot's count: the
parent's handleCapture is the onCapture callback, so the clamp-increment runs
exactly when captureAndDetect reaches onCapture. -/
def intrinsicCounterAfter (e : IntrinsicEnv) (count : Nat) : Nat :=
  if captureAndDetect e then captureIncrement count else count

/-! ## CalibrationService (src/src/services/CalibrationService.ts) -/

/-- CalibrationConfig from CalibrationService.ts lines 19-25; markerSize and
maxReprojError are exact decimal constants in the source, embedded as
rationals. -/
structure CalibrationConfig where
  numCameras : Nat
  resolution : Nat × Nat
  markerSize : Rat
  minMarkersDetected : Nat
  maxReprojError : Rat
  deriving Repr, DecidableEq

/-- Fixed private config of the service instance, CalibrationService.ts lines
36-42: numCameras 3, resolution 1280x720, markerSize 0.05, minMarkersDetected
4, maxReprojError 1.0. -/
def serviceConfig : CalibrationConfig :=
  { numCameras := 3
    resolution := (1280, 720)
    markerSize := 5 / 100
    minMarkersDetected := 4
    maxReprojError := 1 }

/-- Body of a POST to /detect_markers; the config field is optional in the
endpoint contract. -/
structure DetectMarkersBody where
  image : String
  cameraIndex : Nat
  config : Option CalibrationConfig
  deriving Repr, DecidableEq

/-- Body built by CalibrationService.detectMarkers, lines 69-73: image,
camera_index and the fixed service config. -/
def serviceDetectBody (image : String) (cameraIndex : Nat) : DetectMarkersBody :=
  { image := image, cameraIndex := cameraIndex, config := some serviceConfig }

/-- Body built by the direct fetch in IntrinsicCalibration.captureAndDetect,
lines 82-85: image and camera_index only. -/
def intrinsicDetectBody (image : String) (cameraIndex : Nat) : DetectMarkersBody :=
  { image := image, cameraIndex := cameraIndex, config := none }

/-- Body of a POST to /start_calibration. -/
structure StartCalibrationBody where
  cameraIndices : List Nat
  config : CalibrationConfig
  deriving Repr, DecidableEq

/-- Body built by CalibrationService.startCalibration, lines 114-117. -/
def startCalibrationBody (cameraIndices : List Nat) : StartCalibrationBody :=
  { cameraIndices := cameraIndices, config := serviceConfig }

/-- CalibrationResult from CalibrationService.ts lines 3-11, restricted to the
fields the callers read; the optional detected field is read with JS falsy
semantics, so an absent field is embedded as false. -/
structure CalibrationResult where
  success : Bool
  detected : Bool
  message : Option String
  deriving Repr, DecidableEq

/-- Outcome of one HTTP exchange as seen by the service: network failure
(fetch or json() rejects), a response with ok false, or a parsed ok
response. -/
inductive HttpOutcome where
  | netFailure (msg : String)
  | httpFailure (status : Nat) (msg : Option String)
  | resolved
  deriving Repr, DecidableEq

/-- startCalibration from CalibrationService.ts lines 104-138, also returning
whether polling was started (isCalibrating set and startProgressPolling
called, lines 125-126).  Every failure is caught and converted into a
returned success-false result (lines 132-137); the function never throws. -/
def startCalibration (out : HttpOutcome) (cameraIndices : List Nat) :
    CalibrationResult × Bool :=
  match out with
  | .resolved =>
      ({ success := true, detected := false,
         message := some ("Extrinsic calibration started with "
           ++ toString cameraIndices.length ++ " cameras at 1280x720") }, true)
  | .netFailure msg =>
      ({ success := false, detected := false, message := some msg }, false)
  | .httpFailure _ msg =>
      ({ success := false, detected := false,
         message := some (msg.getD "Extrinsic calibration failed to start") }, false)

/-! ## Extrinsic capture coordinator (src/unnamed/part_002, ExtrinsicCalibration) -/

/-- Status values of the coordinator's progress record, part_002 line 68. -/
inductive CalStatus where
  | idle
  | detecting
  | calibrating
  | complete
  | errored
  deriving Repr, DecidableEq

/-- Progress record kept by the coordinator, part_002 lines 67-75. -/
structure CalProgress where
  status : CalStatus
  progress : Nat
  message : String
  deriving Repr, DecidableEq

/-- Join of the three per-camera detection promises, part_002 line 104: the
detection closures throw when a video element or canvas context is missing, so
Promise.all either rejects with such an error or yields the three results
(detectMarkers itself catches everything and always resolves). -/
def promiseAll3 (d0 d1 d2 : Except String CalibrationResult) :
    Except String (List CalibrationResult) :=
  match d0, d1, d2 with
  | .ok a, .ok b, .ok c => .ok [a, b, c]
  | .error e, _, _ => .error e
  | .ok _, .error e, _ => .error e
  | .ok _, .ok _, .error e => .error e

/-- captureImage from part_002 lines 79-146 after the detection join: the
all-success test at line 106 guards the startCalibration call at line 113 and
the complete/100 progress record at lines 114-118; any failed or missing
detection lands in the catch with an errored progress record and no
startCalibration call.  Returns the final progress record and whether a
calibration job was started.  The result of startCalibration is awaited but
never inspected. -/
def captureImage (detections : Except String (List CalibrationResult))
    (_startResult : CalibrationResult) : CalProgress × Bool :=
  match detections with
  | .error e =>
      ({ status := .errored, progress := 0, message := e }, false)
  | .ok results =>
      if results.all (fun r => r.success && r.detected) then
        ({ status := .complete, progress := 100,
           message := "Extrinsic calibration completed successfully for all cameras" },
         true)
      else
        ({ status := .errored, progress := 0,
           message := "Failed to detect markers in all camera views" }, false)

/-! ## Permission probe and enumeration (src/src/hooks/useCameras.ts) -/

/-- MAX_PERMISSION_ATTEMPTS from useCameras.ts line 16. -/
def maxPermissionAttempts : Nat := 5

/-- Delay in milliseconds between permission attempts, useCameras.ts line 36. -/
def permissionDelayMs : Nat := 3000

/-- Permission-probe while loop from useCameras.ts lines 18-38, driven by the
outcome of each getUserMedia try: outcome a = none means the attempt entered
with the failure counter at a succeeds, some e that it fails with error e.
The counter counts failures; on success the loop breaks, on the failure that
brings the counter to MAX_PERMISSION_ATTEMPTS the error is rethrown, otherwise
the loop sleeps 3000 ms and retries.  The fuel argument carries the remaining
loop iterations; results are the loop outcome (ok with the final failure
counter, or the thrown error) together with the list of sleeps performed. -/
def probeGo (outcome : Nat → Option String) :
    Nat → Nat → Except String Nat × List Nat
  | a, 0 => (.ok a, [])
  | a, fuel + 1 =>
      match outcome a with
      | none => (.ok a, [])
      | some e =>
          if a + 1 = maxPermissionAttempts then (.error e, [])
          else
            let r := probeGo outcome (a + 1) fuel
            (r.1, permissionDelayMs :: r.2)

/-- Whole probe loop entered with the failure counter at 0. -/
def probeLoop (outcome : Nat → Option String) : Except String Nat × List Nat :=
  probeGo outcome 0 maxPermissionAttempts

/-- A media device as returned by enumerateDevices, useCameras.ts line 41. -/
structure MediaDevice where
  deviceId : String
  kind : String
  label : String
  deriving Repr, DecidableEq

/-- A user-visible toast notice, with its destructive variant flag. -/
structure Notice where
  title : String
  description : String
  destructive : Bool
  deriving Repr, DecidableEq

/-- Error toast from useCameras.ts lines 61-65. -/
def cameraErrorNotice : Notice :=
  { title := "Camera Error"
    description := "Could not access cameras in Camera Setup."
    destructive := true }

/-- Success toast from useCameras.ts lines 55-58. -/
def camerasDetectedNotice (n : Nat) : Notice :=
  { title := "Cameras Detected"
    description := "Found " ++ toString n ++ " cameras in Camera Setup"
    destructive := false }

/-- Environment of one getCameras run: the probe outcomes and the device list
returned by enumerateDevices. -/
structure CamerasEnv where
  probeOutcome : Nat → Option String
  devices : List MediaDevice

/-- getCameras from useCameras.ts lines 11-69: probe for permission, filter
the enumeration to videoinput devices, throw when the list is empty; the
catch turns every failure into an empty exposed device list plus one
destructive toast.  Returns the new cameraDevices value and the toasts
emitted by this run; the previous device list is not consulted (wholesale
replacement) and no exception propagates out. -/
def getCameras (env : CamerasEnv) : List MediaDevice × List Notice :=
  match (probeLoop env.probeOutcome).1 with
  | .error _ => ([], [cameraErrorNotice])
  | .ok _ =>
      let videoDevices := env.devices.filter (fun d => d.kind == "videoinput")
      if videoDevices.isEmpty then ([], [cameraErrorNotice])
      else (videoDevices, [camerasDetectedNotice videoDevices.length])

/-! ## Stream acquisition retry loop (src/src/components/CameraView.tsx) -/

/-- MAX_RETRIES from CameraView.tsx line 24. -/
def maxRetries : Nat := 7

/-- Retry delay in milliseconds, CameraView.tsx line 97. -/
def retryDelayMs : Nat := 3000

/-- Retry chain of initCamera from CameraView.tsx lines 26-113: outcome rc is
the result of the attempt made with retryCount = rc.  On failure with
retryCount below MAX_RETRIES the counter is incremented and a retry scheduled
after 3000 ms; at MAX_RETRIES the error becomes terminal.  The fuel argument
carries the remaining attempts; results are the outcome (ok with the final
retryCount, or the terminal error) together with the list of backoff delays. -/
def retryGo (outcome : Nat → Option String) :
    Nat → Nat → Except String Nat × List Nat
  | rc, 0 => (.ok rc, [])
  | rc, fuel + 1 =>
      match outcome rc with
      | none => (.ok rc, [])
      | some e =>
          if rc < maxRetries then
            let r := retryGo outcome (rc + 1) fuel
            (r.1, retryDelayMs :: r.2)
          else (.error e, [])

/-- Whole initCamera retry sequence entered with retryCount = 0. -/
def initCameraRetries (outcome : Nat → Option String) : Except String Nat × List Nat :=
  retryGo outcome 0 (maxRetries + 1)

/-! ## Progress polling (CalibrationService.ts lines 140-164) -/

/-- Interval period of the progress poll, CalibrationService.ts line 155. -/
def pollIntervalMs : Nat := 1000

/-- Polling state of the service: whether the interval handle is set and the
isCalibrating flag. -/
structure PollState where
  intervalActive : Bool
  isCalibrating : Bool
  deriving Repr, DecidableEq

/-- stopProgressPolling from CalibrationService.ts lines 158-164: clear the
interval and drop the isCalibrating flag. -/
def stopProgressPolling (_s : PollState) : PollState :=
  { intervalActive := false, isCalibrating := false }

/-- startCalibration's effect on the polling state, lines 125-126 and 140-145:
set isCalibrating and install a fresh interval. -/
def startCalibrationPolling (_s : PollState) : PollState :=
  { intervalActive := true, isCalibrating := true }

/-- Outcome of one getProgress call as seen by the interval callback:
getProgress rethrows network and non-ok failures, otherwise yields the
reported progress value. -/
inductive TickOutcome where
  | failed (msg : String)
  | value (progress : Nat)
  deriving Repr, DecidableEq

/-- Does this outcome satisfy the stop test of the interval callback, lines
148-153: an error, or a polled progress at or past 100. -/
def terminalOutcome (o : TickOutcome) : Bool :=
  match o with
  | .failed _ => true
  | .value p => decide (100 ≤ p)

/-- One firing of the interval callback, CalibrationService.ts lines 145-155.
When the interval is cleared the callback never fires, so no progress request
is issued; otherwise a getProgress request goes out and the callback stops
polling on error, on cleared isCalibrating, or on progress at or past 100.
Returns the new state and whether a progress request was issued. -/
def pollTick (o : TickOutcome) (s : PollState) : PollState × Bool :=
  if s.intervalActive then
    match o with
    | .failed _ => (stopProgressPolling s, true)
    | .value p =>
        if !s.isCalibrating || 100 ≤ p then (stopProgressPolling s, true)
        else (s, true)
  else (s, false)

/-- A run of successive interval firings, counting issued progress requests. -/
def pollRun : List TickOutcome → PollState → PollState × Nat
  | [], s => (s, 0)
  | o :: os, s =>
      let step := pollTick o s
      let rest := pollRun os step.1
      (rest.1, (if step.2 then 1 else 0) + rest.2)

/-! ## Per-slot stream lifecycle (src/src/components/CameraView.tsx)

The effect body of CameraView runs on a single-threaded event loop; the steps
below are the code segments between its suspension points, taken atomically.
The single-flight guard initializingRef (lines 18, 27-31, 109) means a new
initCamera run cannot begin while one is suspended at the getUserMedia await,
which the phase field encodes.  The model covers one effect generation (one
mount of a device binding); the effect cleanup leaves the slot with no held
stream, no attached sink and no live stream, which is the state a following
generation starts from. -/

/-- Program position of the slot's single-flight initCamera run. -/
inductive SlotPhase where
  | idling
  | awaiting
  deriving Repr, DecidableEq

/-- State of one camera slot: the mounted flag of the effect closure, the
streamRef holding the currently owned stream, the video sink's srcObject, the
set of streams created and not yet stopped (identified by creation order), and
the next fresh stream identifier. -/
structure SlotState where
  mounted : Bool
  streamRef : Option Nat
  sink : Option Nat
  live : List Nat
  nextId : Nat
  phase : SlotPhase
  deriving Repr, DecidableEq

/-- Slot state at mount, CameraView.tsx lines 12-21. -/
def initSlot : SlotState :=
  { mounted := true, streamRef := none, sink := none, live := [], nextId := 0,
    phase := .idling }

/-- Lines 38-46 of initCamera, run before the getUserMedia request: stop every
track of a previously held stream, drop the streamRef and detach the sink.
Only runs when no other initCamera run is in flight (initializingRef guard). -/
def stopExisting (s : SlotState) : SlotState :=
  match s.streamRef with
  | some t =>
      { s with live := s.live.erase t, streamRef := none, sink := none,
               phase := .awaiting }
  | none => { s with sink := none, phase := .awaiting }

/-- Lines 60-90 of initCamera: the getUserMedia promise resolves with a fresh
stream.  If the effect was torn down meanwhile (mounted false, lines 62-65)
the stream's tracks are stopped at once and nothing is attached; otherwise the
stream becomes the held stream and is attached to the sink. -/
def resolveStream (s : SlotState) : SlotState :=
  if s.mounted then
    { s with streamRef := some s.nextId, sink := some s.nextId,
             live := s.live ++ [s.nextId], nextId := s.nextId + 1,
             phase := .idling }
  else
    { s with nextId := s.nextId + 1, phase := .idling }

/-- Effect cleanup, CameraView.tsx lines 115-129: mark the closure unmounted,
clear the retry timer, stop every track of the held stream, drop the streamRef
and detach the sink. -/
def cleanupSlot (s : SlotState) : SlotState :=
  match s.streamRef with
  | some t =>
      { s with mounted := false, live := s.live.erase t, streamRef := none,
               sink := none }
  | none => { s with mounted := false, sink := none }

/-- Slot states reachable from mount under the event-loop steps of CameraView:
a stopExisting step begins an initCamera run when none is in flight, a
resolveStream step completes the pending getUserMedia, and cleanup may run at
any suspension point. -/
inductive SlotReachable : SlotState → Prop
  | init : SlotReachable initSlot
  | stop {s : SlotState} : SlotReachable s → s.phase = SlotPhase.idling →
      SlotReachable (stopExisting s)
  | resolve {s : SlotState} : SlotReachable s → s.phase = SlotPhase.awaiting →
      SlotReachable (resolveStream s)
  | teardown {s : SlotState} : SlotReachable s → SlotReachable (cleanupSlot s)

/-- Inductive invariant of the slot machine: while a getUserMedia request is
pending nothing is held, attached or live, and at any suspension point the
live streams are exactly the held one. -/
def SlotInv (s : SlotState) : Prop :=
  (s.phase = SlotPhase.awaiting → s.streamRef = none ∧ s.sink = none ∧ s.live = []) ∧
  (match s.streamRef with
   | none => s.live = []
   | some t => s.live = [t]) ∧
  (∀ t, s.sink = some t → s.streamRef = some t)

/-! Helper lemmas about List.set and List.getD used by the counter claims. -/

theorem list_getD_set_self (l : List Nat) (i : Nat) (v : Nat) (h : i < l.length) :
    (l.set i v).getD i 0 = v := by
  induction l generalizing i with
  | nil => simp at h
  | cons a t ih =>
    cases i with
    | zero => simp [List.set, List.getD]
    | succ j =>
      simp only [List.set, List.getD, List.get?_cons_succ] at *
      exact ih j (by simpa using h)

theorem list_getD_set_other (l : List Nat) (i j : Nat) (v : Nat) (hne : j ≠ i) :
    (l.set i v).getD j 0 = l.getD j 0 := by
  induction l generalizing i j with
  | nil => simp [List.set]
  | cons a t ih =>
    cases i with
    | zero =>
      cases j with
      | zero => exact absurd rfl hne
      | succ k => simp [List.set, List.getD]
    | succ i' =>
      cases j with
      | zero => simp [List.set, List.getD]
      | succ k =>
        simp only [List.set, List.getD, List.get?_cons_succ]
        exact ih i' k (fun hk => hne (by rw [hk]))

theorem list_set_getD_self (l : List Nat) (i : Nat) :
    l.set i (l.getD i 0) = l := by
  induction l generalizing i with
  | nil => simp
  | cons a t ih =>
    cases i with
    | zero => simp [List.set, List.getD]
    | succ j =>
      simp only [List.set, List.getD, List.get?_cons_succ]
      have hj := ih j
      simp only [List.getD] at hj
      rw [hj]

theorem list_mem_set_bound (l : List Nat) (i v c : Nat) (hv : v ≤ 15)
    (hl : ∀ x ∈ l, x ≤ 15) (hc : c ∈ l.set i v) : c ≤ 15 := by
  rcases List.mem_or_eq_of_mem_set hc with h | h
  · exact hl c h
  · exact h ▸ hv

theorem slotInv_init : SlotInv initSlot := by
  refine ⟨?_, ?_, ?_⟩ <;> simp [initSlot, SlotInv]

theorem slotInv_stop {s : SlotState} (h : SlotInv s) : SlotInv (stopExisting s) := by
  obtain ⟨_hp, href, _hsink⟩ := h
  cases hr : s.streamRef with
  | none =>
      rw [hr] at href
      refine ⟨?_, ?_, ?_⟩ <;> simp [stopExisting, hr, href]
  | some t =>
      rw [hr] at href
      refine ⟨?_, ?_, ?_⟩ <;> simp [stopExisting, hr, href, List.erase_cons]

theorem slotInv_resolve {s : SlotState} (h : SlotInv s)
    (hp : s.phase = SlotPhase.awaiting) : SlotInv (resolveStream s) := by
  obtain ⟨hpend, _href, _hsink⟩ := h
  obtain ⟨hr, hs, hl⟩ := hpend hp
  by_cases hm : s.mounted = true
  · refine ⟨?_, ?_, ?_⟩ <;> simp [resolveStream, hm, hr, hs, hl]
  · simp only [Bool.not_eq_true] at hm
    refine ⟨?_, ?_, ?_⟩ <;> simp [resolveStream, hm, hr, hs, hl]

theorem slotInv_teardown {s : SlotState} (h : SlotInv s) : SlotInv (cleanupSlot s) := by
  obtain ⟨hpend, href, hsink⟩ := h
  cases hr : s.streamRef with
  | none =>
      rw [hr] at href
      refine ⟨?_, ?_, ?_⟩ <;> simp [cleanupSlot, hr, href]
  | some t =>
      rw [hr] at href
      refine ⟨?_, ?_, ?_⟩ <;> simp [cleanupSlot, hr, href, List.erase_cons]

theorem slotInv_of_reachable {s : SlotState} (h : SlotReachable s) : SlotInv s := by
  induction h with
  | init => exact slotInv_init
  | stop _ _ ih => exact slotInv_stop ih
  | resolve _ hp ih => exact slotInv_resolve ih hp
  | teardown _ ih => exact slotInv_teardown ih

/-! ## Claim C1 -/

/-- Claim C1 counterexample: the update at the increment site (Index.tsx line
46) is the silent clamp min(count + 1, 15), not a rejection.  At count 16 the
clamp and the spec's reject-at-boundary semantics provably differ, and the
clamp even lowers the count, which no rejection ever does; so the increment
site does not implement rejection, it clamps after computing the increment. -/
theorem captureIncrement_is_clamp_not_reject :
    captureIncrement 16 = 15 ∧ rejectAtBoundary 16 = 16 ∧
    captureIncrement 16 ≠ rejectAtBoundary 16 ∧ captureIncrement 16 < 16 := by
  refine ⟨rfl, by decide, by decide, by decide⟩

/-- Claim C1 amended: for every slot, a capture never raises any count past
15; when count(i) is already 15 a capture attempt leaves the counts unchanged;
and the enforcement is the UI gate (the capture button is enabled only while
the count is below 15) together with the min-clamp at the increment site, not
a rejection branch at the increment site. -/
theorem capture_never_past_cap (s : WizardState) (i : Nat)
    (hbound : ∀ c ∈ s.captureCounts, c ≤ 15) :
    (∀ c ∈ (handleCapture i s).captureCounts, c ≤ 15) ∧
    (s.captureCounts.getD i 0 = 15 →
      (handleCapture i s).captureCounts = s.captureCounts) ∧
    (∀ r b, captureButtonEnabled r (s.captureCounts.getD i 0) b = true →
      s.captureCounts.getD i 0 < 15) := by
  refine ⟨?_, ?_, ?_⟩
  · intro c hc
    exact list_mem_set_bound _ i _ c (Nat.min_le_right _ _) hbound hc
  · intro h15
    show s.captureCounts.set i (captureIncrement (s.captureCounts.getD i 0))
        = s.captureCounts
    rw [h15]
    have hinc : captureIncrement 15 = 15 := rfl
    rw [hinc, ← h15]
    exact list_set_getD_self _ _
  · intro r b hen
    simp only [captureButtonEnabled, Bool.and_eq_true, Bool.not_eq_true',
      decide_eq_false_iff_not, not_le] at hen
    exact hen.1.2

/-- Claim C1 amended, witness: a state whose slot 0 already holds 15 captures
is left unchanged by a further capture on slot 0. -/
theorem capture_never_past_cap_witness :
    (handleCapture 0
        { currentCamera := 0, captureCounts := [15, 3, 0], isCapturing := false }
      ).captureCounts = [15, 3, 0] :=
  (capture_never_past_cap
      { currentCamera := 0, captureCounts := [15, 3, 0], isCapturing := false }
      0 (by decide)).2.1 (by decide)

/-! ## Claim C3 -/

/-- Claim C3: switchCamera(i) sets the active slot to i, resets count(i) to 0,
and leaves every other slot's count (and the number of slots) unchanged. -/
theorem switchCamera_resets_only_target (s : WizardState) (i : Nat)
    (hi : i < s.captureCounts.length) :
    (handleCameraSwitch i s).currentCamera = i ∧
    (handleCameraSwitch i s).captureCounts.getD i 0 = 0 ∧
    (∀ j, j ≠ i →
      (handleCameraSwitch i s).captureCounts.getD j 0 = s.captureCounts.getD j 0) ∧
    (handleCameraSwitch i s).captureCounts.length = s.captureCounts.length := by
  refine ⟨rfl, ?_, ?_, ?_⟩
  · exact list_getD_set_self _ _ _ hi
  · intro j hj
    exact list_getD_set_other _ _ _ _ hj
  · exact List.length_set _ _ _

/-- Claim C3 witness: switching to slot 1 from a populated state zeroes slot
1's count and leaves slots 0 and 2 untouched. -/
theorem switchCamera_resets_only_target_witness :
    (handleCameraSwitch 1
        { currentCamera := 0, captureCounts := [7, 9, 4], isCapturing := false }
      ).currentCamera = 1 ∧
    (handleCameraSwitch 1
        { currentCamera := 0, captureCounts := [7, 9, 4], isCapturing := false }
      ).captureCounts.getD 1 0 = 0 ∧
    (handleCameraSwitch 1
        { currentCamera := 0, captureCounts := [7, 9, 4], isCapturing := false }
      ).captureCounts.getD 0 0 = 7 ∧
    (handleCameraSwitch 1
        { currentCamera := 0, captureCounts := [7, 9, 4], isCapturing := false }
      ).captureCounts.getD 2 0 = 4 := by
  have h := switchCamera_resets_only_target
    { currentCamera := 0, captureCounts := [7, 9, 4], isCapturing := false } 1
    (by decide)
  exact ⟨h.1, h.2.1, by rw [h.2.2.1 0 (by decide)]; decide,
    by rw [h.2.2.1 2 (by decide)]; decide⟩

/-! ## Claim C8 -/

/-- Exact condition under which captureAndDetect reaches the onCapture call:
every entry guard passes and the fetch resolved with success and detected. -/
theorem captureAndDetect_true_iff (e : IntrinsicEnv) :
    captureAndDetect e = true ↔
      e.isCapturing = false ∧ e.streamReady = true ∧ e.devicePresent = true ∧
      e.videoAndCanvasReady = true ∧ e.ctxReady = true ∧
      ∃ r, e.fetchResult = FetchOutcome.resolved r ∧
        r.success = true ∧ r.detected = true := by
  obtain ⟨ic, sr, dp, vc, cx, f⟩ := e
  cases ic <;> cases sr <;> cases dp <;> cases vc <;> cases cx <;>
    cases f <;> simp [captureAndDetect]

/-- Claim C8: the capture count changes only when the backend response reports
success and detected; on a network error, a non-ok HTTP status, or a resolved
response without success-and-detected, the count is unchanged. -/
theorem count_increment_needs_detection (e : IntrinsicEnv) (c : Nat) :
    (intrinsicCounterAfter e c ≠ c →
      ∃ r, e.fetchResult = FetchOutcome.resolved r ∧
        r.success = true ∧ r.detected = true) ∧
    (∀ m, e.fetchResult = FetchOutcome.netFailure m →
      intrinsicCounterAfter e c = c) ∧
    (∀ st, e.fetchResult = FetchOutcome.httpFailure st →
      intrinsicCounterAfter e c = c) ∧
    (∀ r, e.fetchResult = FetchOutcome.resolved r →
      ¬(r.success = true ∧ r.detected = true) →
      intrinsicCounterAfter e c = c) := by
  refine ⟨?_, ?_, ?_, ?_⟩
  · intro hne
    unfold intrinsicCounterAfter at hne
    by_cases hcd : captureAndDetect e = true
    · exact ((captureAndDetect_true_iff e).mp hcd).2.2.2.2.2
    · rw [if_neg hcd] at hne
      exact absurd rfl hne
  · intro m hm
    unfold intrinsicCounterAfter
    rw [if_neg]
    intro hcd
    obtain ⟨r, hr, -, -⟩ := ((captureAndDetect_true_iff e).mp hcd).2.2.2.2.2
    rw [hm] at hr
    exact FetchOutcome.noConfusion hr
  · intro st hst
    unfold intrinsicCounterAfter
    rw [if_neg]
    intro hcd
    obtain ⟨r, hr, -, -⟩ := ((captureAndDetect_true_iff e).mp hcd).2.2.2.2.2
    rw [hst] at hr
    exact FetchOutcome.noConfusion hr
  · intro r hr hnot
    unfold intrinsicCounterAfter
    rw [if_neg]
    intro hcd
    obtain ⟨r2, hr2, hs, hd⟩ := ((captureAndDetect_true_iff e).mp hcd).2.2.2.2.2
    rw [hr] at hr2
    obtain rfl : r = r2 := FetchOutcome.resolved.inj hr2
    exact hnot ⟨hs, hd⟩

/-- Claim C8 witness: a resolved response with success true but detected false
leaves the count at its previous value 4. -/
theorem count_increment_needs_detection_witness :
    intrinsicCounterAfter
      { isCapturing := false, streamReady := true, devicePresent := true,
        videoAndCanvasReady := true, ctxReady := true,
        fetchResult := FetchOutcome.resolved
          { success := true, detected := false, message := none } } 4 = 4 :=
  (count_increment_needs_detection
      { isCapturing := false, streamReady := true, devicePresent := true,
        videoAndCanvasReady := true, ctxReady := true,
        fetchResult := FetchOutcome.resolved
          { success := true, detected := false, message := none } } 4).2.2.2
    { success := true, detected := false, message := none } rfl (by decide)

/-! ## Claim C2 -/

/-- The started flag of captureImage is exactly the all-success test of the
joined detection results. -/
theorem captureImage_started (dets : Except String (List CalibrationResult))
    (sr : CalibrationResult) :
    (captureImage dets sr).2 =
      (match dets with
       | .ok rs => rs.all (fun r => r.success && r.detected)
       | .error _ => false) := by
  cases dets with
  | error e => rfl
  | ok rs =>
      cases h : rs.all (fun r => r.success && r.detected) <;>
        simp [captureImage, h]

/-- Unfolded all-success test over the three joined detections. -/
theorem promiseAll3_started_iff (d0 d1 d2 : Except String CalibrationResult)
    (sr : CalibrationResult) :
    (captureImage (promiseAll3 d0 d1 d2) sr).2 = true ↔
      ∃ r0 r1 r2, d0 = .ok r0 ∧ d1 = .ok r1 ∧ d2 = .ok r2 ∧
        (r0.success = true ∧ r0.detected = true) ∧
        (r1.success = true ∧ r1.detected = true) ∧
        (r2.success = true ∧ r2.detected = true) := by
  rw [captureImage_started]
  cases d0 <;> cases d1 <;> cases d2 <;>
    simp [promiseAll3, List.all_cons, List.all_nil, Bool.and_eq_true]

/-- Claim C2: the extrinsic captureFrame starts a calibration job exactly when
all three detection calls yield a result with success and detected; if any of
the three throws or reports failure or non-detection, no job is started for
that round. -/
theorem captureFrame_starts_iff_all_detected
    (d0 d1 d2 : Except String CalibrationResult) (sr : CalibrationResult) :
    ((captureImage (promiseAll3 d0 d1 d2) sr).2 = true ↔
      ∃ r0 r1 r2, d0 = .ok r0 ∧ d1 = .ok r1 ∧ d2 = .ok r2 ∧
        (r0.success = true ∧ r0.detected = true) ∧
        (r1.success = true ∧ r1.detected = true) ∧
        (r2.success = true ∧ r2.detected = true)) ∧
    (∀ results r, promiseAll3 d0 d1 d2 = .ok results → r ∈ results →
      (r.success = false ∨ r.detected = false) →
      (captureImage (promiseAll3 d0 d1 d2) sr).2 = false) := by
  refine ⟨promiseAll3_started_iff d0 d1 d2 sr, ?_⟩
  intro results r hall hmem hfail
  cases hb : (captureImage (promiseAll3 d0 d1 d2) sr).2 with
  | false => rfl
  | true =>
      exfalso
      obtain ⟨r0, r1, r2, h0, h1, h2, p0, p1, p2⟩ :=
        (promiseAll3_started_iff d0 d1 d2 sr).mp hb
      subst h0; subst h1; subst h2
      simp only [promiseAll3, Except.ok.injEq] at hall
      subst hall
      simp only [List.mem_cons, List.not_mem_nil, or_false] at hmem
      rcases hmem with h | h | h <;> subst h <;>
        rcases hfail with hf | hf <;>
          first
          | exact Bool.false_ne_true (hf ▸ p0.1)
          | exact Bool.false_ne_true (hf ▸ p0.2)
          | exact Bool.false_ne_true (hf ▸ p1.1)
          | exact Bool.false_ne_true (hf ▸ p1.2)
          | exact Bool.false_ne_true (hf ▸ p2.1)
          | exact Bool.false_ne_true (hf ▸ p2.2)

/-- Claim C2 witness: with two successful detections and one resolved
non-detection, the round starts no calibration job. -/
theorem captureFrame_starts_iff_all_detected_witness :
    (captureImage
        (promiseAll3
          (Except.ok { success := true, detected := true, message := none })
          (Except.ok { success := true, detected := true, message := none })
          (Except.ok { success := true, detected := false, message := none }))
        { success := true, detected := true, message := none }).2 = false :=
  (captureFrame_starts_iff_all_detected
      (Except.ok { success := true, detected := true, message := none })
      (Except.ok { success := true, detected := true, message := none })
      (Except.ok { success := true, detected := false, message := none })
      { success := true, detected := true, message := none }).2
    [{ success := true, detected := true, message := none },
     { success := true, detected := true, message := none },
     { success := true, detected := false, message := none }]
    { success := true, detected := false, message := none }
    rfl (by decide) (Or.inr rfl)

/-! ## Claim C9 -/

/-- Claim C9 counterexample: the detect_markers request built by the intrinsic
component's direct fetch (IntrinsicCalibration.tsx lines 82-85) carries no
config field, while the claim asserts every detection request carries the
fixed-default config; the two request builders provably disagree on the same
image and camera index. -/
theorem intrinsic_detect_omits_config :
    (intrinsicDetectBody "frame" 0).config = none ∧
    (serviceDetectBody "frame" 0).config = some serviceConfig ∧
    (intrinsicDetectBody "frame" 0).config ≠ (serviceDetectBody "frame" 0).config := by
  refine ⟨rfl, rfl, ?_⟩
  intro h
  exact Option.noConfusion h

/-- Claim C9 amended: every detection and calibration-start request built by
CalibrationService carries the fixed default config (numCameras 3, resolution
1280x720, markerSize 0.05, minMarkersDetected 4, maxReprojError 1.0), while
the intrinsic component's direct detect_markers fetch sends only image and
camera_index, omitting the optional config field. -/
theorem service_requests_carry_config (image : String) (cameraIndex : Nat)
    (cameraIndices : List Nat) :
    (serviceDetectBody image cameraIndex).config = some serviceConfig ∧
    (startCalibrationBody cameraIndices).config = serviceConfig ∧
    serviceConfig.numCameras = 3 ∧
    serviceConfig.resolution = (1280, 720) ∧
    serviceConfig.markerSize = 5 / 100 ∧
    serviceConfig.minMarkersDetected = 4 ∧
    serviceConfig.maxReprojError = 1 ∧
    (intrinsicDetectBody image cameraIndex).config = none :=
  ⟨rfl, rfl, rfl, rfl, rfl, rfl, rfl, rfl⟩

/-! ## Claim C10 -/

/-- Claim C10: whenever all three detections report success and detected, the
coordinator's progress record ends at status complete with progress 100 as
soon as startCalibration resolves, whatever value startCalibration returned
and whatever its HTTP exchange did; and startCalibration never throws, every
failure becoming a returned success-false result. -/
theorem captureFrame_complete_ignores_start_result
    (results : List CalibrationResult)
    (hall : ∀ r ∈ results, r.success = true ∧ r.detected = true)
    (out out' : HttpOutcome) (idx idx' : List Nat) :
    (captureImage (.ok results) (startCalibration out idx).1).1.status
        = CalStatus.complete ∧
    (captureImage (.ok results) (startCalibration out idx).1).1.progress = 100 ∧
    captureImage (.ok results) (startCalibration out idx).1
      = captureImage (.ok results) (startCalibration out' idx').1 ∧
    (∀ m, (startCalibration (.netFailure m) idx).1.success = false) ∧
    (∀ st m, (startCalibration (.httpFailure st m) idx).1.success = false) := by
  have hstarted : results.all (fun r => r.success && r.detected) = true := by
    rw [List.all_eq_true]
    intro r hr
    rw [Bool.and_eq_true]
    exact hall r hr
  refine ⟨?_, ?_, rfl, fun m => rfl, fun st m => rfl⟩ <;>
    simp [captureImage, hstarted]

/-- Claim C10 witness: with three successful detections, the final record is
complete at 100 both when the start request fails at the network layer and
when it resolves. -/
theorem captureFrame_complete_ignores_start_result_witness :
    (captureImage
        (Except.ok [{ success := true, detected := true, message := none },
                    { success := true, detected := true, message := none },
                    { success := true, detected := true, message := none }])
        (startCalibration (HttpOutcome.netFailure "connection refused") [0, 1, 2]).1
      ).1.status = CalStatus.complete ∧
    (startCalibration (HttpOutcome.netFailure "connection refused") [0, 1, 2]).1.success
      = false :=
  ⟨(captureFrame_complete_ignores_start_result
      [{ success := true, detected := true, message := none },
       { success := true, detected := true, message := none },
       { success := true, detected := true, message := none }]
      (by decide) (HttpOutcome.netFailure "connection refused") HttpOutcome.resolved
      [0, 1, 2] [0, 1, 2]).1,
   (captureFrame_complete_ignores_start_result
      [{ success := true, detected := true, message := none },
       { success := true, detected := true, message := none },
       { success := true, detected := true, message := none }]
      (by decide) (HttpOutcome.netFailure "connection refused") HttpOutcome.resolved
      [0, 1, 2] [0, 1, 2]).2.2.2.1 "connection refused"⟩

/-! ## Claim C5 -/

/-- Behaviour of the permission-probe loop from any failure-counter value a
with remaining fuel covering the loop bound: delays are all 3000 ms, at most
fuel - 1 sleeps happen, a thrown error is the error of the final attempt, and
a success reports an attempt whose outcome was none within the bound. -/
theorem probeGo_spec (outcome : Nat → Option String) :
    ∀ fuel a, a + fuel = maxPermissionAttempts → 0 < fuel →
      (∀ d ∈ (probeGo outcome a fuel).2, d = permissionDelayMs) ∧
      (probeGo outcome a fuel).2.length + 1 ≤ fuel ∧
      (∀ e, (probeGo outcome a fuel).1 = .error e →
        outcome (maxPermissionAttempts - 1) = some e ∧
        (probeGo outcome a fuel).2.length = fuel - 1) ∧
      (∀ b, (probeGo outcome a fuel).1 = .ok b →
        a ≤ b ∧ b < maxPermissionAttempts ∧ outcome b = none) := by
  intro fuel
  induction fuel with
  | zero => intro a _ hf; exact absurd hf (lt_irrefl 0)
  | succ f ih =>
      intro a hsum _
      cases ho : outcome a with
      | none =>
          refine ⟨?_, ?_, ?_, ?_⟩
          · intro d hd
            simp [probeGo, ho] at hd
          · simp [probeGo, ho]
          · intro e he
            simp [probeGo, ho] at he
          · intro b hb
            simp only [probeGo, ho] at hb
            obtain rfl : a = b := Except.ok.inj hb
            have ha : a < maxPermissionAttempts := by
              unfold maxPermissionAttempts at hsum ⊢; omega
            exact ⟨le_refl a, ha, ho⟩
      | some e =>
          by_cases hlast : a + 1 = maxPermissionAttempts
          · refine ⟨?_, ?_, ?_, ?_⟩
            · intro d hd
              simp [probeGo, ho, hlast] at hd
            · simp [probeGo, ho, hlast]
            · intro e' he'
              simp only [probeGo, ho, if_pos hlast] at he'
              obtain rfl : e = e' := Except.error.inj he'
              have hf0 : f = 0 := by
                unfold maxPermissionAttempts at hsum hlast; omega
              have ha : a = maxPermissionAttempts - 1 := by
                unfold maxPermissionAttempts at hlast ⊢; omega
              subst hf0
              refine ⟨ha ▸ ho, ?_⟩
              simp [probeGo, ho, hlast]
            · intro b hb
              simp [probeGo, ho, hlast] at hb
          · have hf : 0 < f := by
              unfold maxPermissionAttempts at hsum hlast; omega
            obtain ⟨ihd, ihlen, iherr, ihok⟩ := ih (a + 1) (by omega) hf
            refine ⟨?_, ?_, ?_, ?_⟩
            · intro d hd
              simp only [probeGo, ho, if_neg hlast, List.mem_cons] at hd
              rcases hd with rfl | hd
              · rfl
              · exact ihd d hd
            · simp only [probeGo, ho, if_neg hlast, List.length_cons]
              omega
            · intro e' he'
              simp only [probeGo, ho, if_neg hlast] at he' ⊢
              obtain ⟨h1, h2⟩ := iherr e' he'
              refine ⟨h1, ?_⟩
              simp only [List.length_cons]
              omega
            · intro b hb
              simp only [probeGo, ho, if_neg hlast] at hb
              obtain ⟨h1, h2, h3⟩ := ihok b hb
              exact ⟨by omega, h2, h3⟩

/-- Behaviour of the initCamera retry chain from any retryCount value with
remaining fuel covering the attempt bound: backoffs are all 3000 ms, at most
fuel - 1 of them happen, a terminal error is the error of the attempt made at
retryCount = MAX_RETRIES, and a success reports an attempt within the bound. -/
theorem retryGo_spec (outcome : Nat → Option String) :
    ∀ fuel rc, rc + fuel = maxRetries + 1 → 0 < fuel →
      (∀ d ∈ (retryGo outcome rc fuel).2, d = retryDelayMs) ∧
      (retryGo outcome rc fuel).2.length + 1 ≤ fuel ∧
      (∀ e, (retryGo outcome rc fuel).1 = .error e →
        outcome maxRetries = some e ∧
        (retryGo outcome rc fuel).2.length = fuel - 1) ∧
      (∀ b, (retryGo outcome rc fuel).1 = .ok b →
        rc ≤ b ∧ b ≤ maxRetries ∧ outcome b = none) := by
  intro fuel
  induction fuel with
  | zero => intro rc _ hf; exact absurd hf (lt_irrefl 0)
  | succ f ih =>
      intro rc hsum _
      cases ho : outcome rc with
      | none =>
          refine ⟨?_, ?_, ?_, ?_⟩
          · intro d hd
            simp [retryGo, ho] at hd
          · simp [retryGo, ho]
          · intro e he
            simp [retryGo, ho] at he
          · intro b hb
            simp only [retryGo, ho] at hb
            obtain rfl : rc = b := Except.ok.inj hb
            have hrc : rc ≤ maxRetries := by
              unfold maxRetries at hsum ⊢; omega
            exact ⟨le_refl rc, hrc, ho⟩
      | some e =>
          by_cases hretry : rc < maxRetries
          · have hf : 0 < f := by
              unfold maxRetries at hsum hretry; omega
            obtain ⟨ihd, ihlen, iherr, ihok⟩ := ih (rc + 1) (by omega) hf
            refine ⟨?_, ?_, ?_, ?_⟩
            · intro d hd
              simp only [retryGo, ho, if_pos hretry, List.mem_cons] at hd
              rcases hd with rfl | hd
              · rfl
              · exact ihd d hd
            · simp only [retryGo, ho, if_pos hretry, List.length_cons]
              omega
            · intro e' he'
              simp only [retryGo, ho, if_pos hretry] at he' ⊢
              obtain ⟨h1, h2⟩ := iherr e' he'
              refine ⟨h1, ?_⟩
              simp only [List.length_cons]
              omega
            · intro b hb
              simp only [retryGo, ho, if_pos hretry] at hb
              obtain ⟨h1, h2, h3⟩ := ihok b hb
              exact ⟨by omega, h2, h3⟩
          · refine ⟨?_, ?_, ?_, ?_⟩
            · intro d hd
              simp [retryGo, ho, hretry] at hd
            · simp [retryGo, ho, hretry]
            · intro e' he'
              simp only [retryGo, ho, if_neg hretry] at he'
              obtain rfl : e = e' := Except.error.inj he'
              have hrc : rc = maxRetries := by
                unfold maxRetries at hsum hretry ⊢; omega
              refine ⟨hrc ▸ ho, ?_⟩
              have hfz : f = 0 := by
                unfold maxRetries at hsum hretry; omega
              simp [retryGo, ho, hretry, hfz]
            · intro b hb
              simp [retryGo, ho, hretry] at hb

/-- Claim C5: the permission probe makes at most 5 attempts (at most 4 sleeps
of exactly 3000 ms between them) and on exhaustion surfaces the error of the
last attempt; the stream-acquisition loop performs at most 7 retries (each
after a 3000 ms backoff) and on exhaustion surfaces the error of the attempt
made at retry count 7; both loops are total functions, hence terminate. -/
theorem retry_counts_capped (probe acquire : Nat → Option String) :
    ((probeLoop probe).2.length + 1 ≤ maxPermissionAttempts) ∧
    (∀ d ∈ (probeLoop probe).2, d = permissionDelayMs) ∧
    (∀ e, (probeLoop probe).1 = .error e →
      probe (maxPermissionAttempts - 1) = some e ∧
      (probeLoop probe).2.length = maxPermissionAttempts - 1) ∧
    (∀ b, (probeLoop probe).1 = .ok b →
      b < maxPermissionAttempts ∧ probe b = none) ∧
    ((initCameraRetries acquire).2.length ≤ maxRetries) ∧
    (∀ d ∈ (initCameraRetries acquire).2, d = retryDelayMs) ∧
    (∀ e, (initCameraRetries acquire).1 = .error e →
      acquire maxRetries = some e ∧
      (initCameraRetries acquire).2.length = maxRetries) ∧
    (∀ b, (initCameraRetries acquire).1 = .ok b →
      b ≤ maxRetries ∧ acquire b = none) := by
  obtain ⟨pd, plen, perr, pok⟩ :=
    probeGo_spec probe maxPermissionAttempts 0 (by rfl) (by decide)
  obtain ⟨rd, rlen, rerr, rok⟩ :=
    retryGo_spec acquire (maxRetries + 1) 0 (by rfl) (by decide)
  refine ⟨plen, pd, ?_, ?_, ?_, rd, ?_, ?_⟩
  · intro e he
    exact perr e he
  · intro b hb
    exact ⟨(pok b hb).2.1, (pok b hb).2.2⟩
  · unfold initCameraRetries
    omega
  · intro e he
    obtain ⟨h1, h2⟩ := rerr e he
    refine ⟨h1, ?_⟩
    unfold initCameraRetries
    omega
  · intro b hb
    exact ⟨(rok b hb).2.1, (rok b hb).2.2⟩

/-- Claim C5 witness: when every attempt fails, the probe sleeps exactly four
times and surfaces the fifth attempt's error, and the acquisition loop's
terminal error is the one of the attempt made at retry count 7. -/
theorem retry_counts_capped_witness :
    (probeLoop (fun _ => some "denied")).2.length + 1 ≤ maxPermissionAttempts ∧
    ((fun (_ : Nat) => (some "denied" : Option String))
        (maxPermissionAttempts - 1) = some "denied") ∧
    ((fun (_ : Nat) => (some "busy" : Option String)) maxRetries = some "busy") :=
  ⟨(retry_counts_capped (fun _ => some "denied") (fun _ => some "busy")).1,
   ((retry_counts_capped (fun _ => some "denied") (fun _ => some "busy")).2.2.1
      "denied" rfl).1,
   ((retry_counts_capped (fun _ => some "denied") (fun _ => some "busy")).2.2.2.2.2.2.1
      "busy" rfl).1⟩

/-! ## Claim C6 -/

/-- Claim C6: when an enumeration attempt fails (permission probe exhausted,
or zero video-input devices), the exposed device list becomes empty and
exactly one destructive notice is emitted; getCameras is a total function (the
catch converts every failure into a value, no exception escapes), and a later
run with a succeeding environment repopulates the list regardless of the
earlier failure. -/
theorem getCameras_failsafe (env env2 : CamerasEnv) :
    (∀ e, (probeLoop env.probeOutcome).1 = .error e →
        getCameras env = ([], [cameraErrorNotice])) ∧
    ((env.devices.filter (fun d => d.kind == "videoinput")).isEmpty = true →
        getCameras env = ([], [cameraErrorNotice])) ∧
    cameraErrorNotice.destructive = true ∧
    (getCameras env).2.length = 1 ∧
    (∀ b, (probeLoop env2.probeOutcome).1 = .ok b →
        (env2.devices.filter (fun d => d.kind == "videoinput")).isEmpty = false →
        getCameras env2 =
          (env2.devices.filter (fun d => d.kind == "videoinput"),
           [camerasDetectedNotice
             (env2.devices.filter (fun d => d.kind == "videoinput")).length])) := by
  refine ⟨?_, ?_, rfl, ?_, ?_⟩
  · intro e he
    unfold getCameras
    rw [he]
  · intro hempty
    unfold getCameras
    cases hp : (probeLoop env.probeOutcome).1 with
    | error e => rfl
    | ok b => simp [hempty]
  · unfold getCameras
    cases hp : (probeLoop env.probeOutcome).1 with
    | error e => rfl
    | ok b =>
        by_cases hempty :
            (env.devices.filter (fun d => d.kind == "videoinput")).isEmpty = true
        · simp [hempty]
        · simp [hempty]
  · intro b hb hne
    unfold getCameras
    rw [hb]
    simp [hne]

/-- Claim C6 witness: a run whose enumeration finds only non-video devices
exposes an empty list with one destructive notice, and a following run with a
video device present repopulates the list to length 1. -/
theorem getCameras_failsafe_witness :
    getCameras
        { probeOutcome := fun _ => none,
          devices := [{ deviceId := "m0", kind := "audioinput", label := "Mic" }] }
      = ([], [cameraErrorNotice]) ∧
    getCameras
        { probeOutcome := fun _ => none,
          devices := [{ deviceId := "c0", kind := "videoinput", label := "Cam" }] }
      = ([{ deviceId := "c0", kind := "videoinput", label := "Cam" }],
         [camerasDetectedNotice 1]) :=
  ⟨(getCameras_failsafe
      { probeOutcome := fun _ => none,
        devices := [{ deviceId := "m0", kind := "audioinput", label := "Mic" }] }
      { probeOutcome := fun _ => none,
        devices := [{ deviceId := "c0", kind := "videoinput", label := "Cam" }] }).2.1
     (by decide),
   (getCameras_failsafe
      { probeOutcome := fun _ => none,
        devices := [{ deviceId := "m0", kind := "audioinput", label := "Mic" }] }
      { probeOutcome := fun _ => none,
        devices := [{ deviceId := "c0", kind := "videoinput", label := "Cam" }] }).2.2.2.2
     0 rfl (by decide)⟩

/-! ## Claim C7 -/

/-- A cleared interval never fires again: from a state with no interval
installed, any further tick sequence issues zero progress requests and leaves
the state unchanged. -/
theorem pollRun_inactive (outs : List TickOutcome) (s : PollState)
    (h : s.intervalActive = false) : pollRun outs s = (s, 0) := by
  induction outs with
  | nil => rfl
  | cons o os ih => simp [pollRun, pollTick, h, ih]

/-- Claim C7: a tick whose polled outcome is terminal (an error, or progress
at or past 100) clears the interval at once, so polling stops within that
interval and no further progress request is issued by any later tick; only
a new startCalibration installs a fresh interval. -/
theorem polling_stops_on_terminal (s : PollState) (o : TickOutcome)
    (outs : List TickOutcome)
    (hact : s.intervalActive = true) (hterm : terminalOutcome o = true) :
    (pollTick o s).1.intervalActive = false ∧
    (pollTick o s).2 = true ∧
    pollRun outs (pollTick o s).1 = ((pollTick o s).1, 0) ∧
    (startCalibrationPolling (pollTick o s).1).intervalActive = true := by
  have hstop : (pollTick o s).1
        = { intervalActive := false, isCalibrating := false } ∧
      (pollTick o s).2 = true := by
    cases o with
    | failed m => simp [pollTick, hact, stopProgressPolling]
    | value p =>
        have hp : 100 ≤ p := by simpa [terminalOutcome] using hterm
        simp [pollTick, hact, stopProgressPolling, hp]
  refine ⟨by rw [hstop.1], hstop.2, ?_, by rw [hstop.1]; rfl⟩
  exact pollRun_inactive outs _ (by rw [hstop.1])

/-- Claim C7 witness: from an active polling state, a tick reporting progress
100 stops the interval, and two further scheduled ticks issue no request. -/
theorem polling_stops_on_terminal_witness :
    (pollTick (TickOutcome.value 100)
        { intervalActive := true, isCalibrating := true }).1.intervalActive = false ∧
    pollRun [TickOutcome.value 0, TickOutcome.failed "net"]
        (pollTick (TickOutcome.value 100)
          { intervalActive := true, isCalibrating := true }).1
      = ((pollTick (TickOutcome.value 100)
          { intervalActive := true, isCalibrating := true }).1, 0) :=
  ⟨(polling_stops_on_terminal
      { intervalActive := true, isCalibrating := true } (TickOutcome.value 100)
      [TickOutcome.value 0, TickOutcome.failed "net"] rfl (by decide)).1,
   (polling_stops_on_terminal
      { intervalActive := true, isCalibrating := true } (TickOutcome.value 100)
      [TickOutcome.value 0, TickOutcome.failed "net"] rfl (by decide)).2.2.1⟩

/-! ## Claim C4 -/

/-- Claim C4: in every reachable slot state at most one live stream exists;
while a new stream request is pending the previously held stream has been
stopped and detached from the sink; a stream resolving after teardown began
(mounted false) is stopped rather than attached, leaving streamRef and sink
untouched; and teardown itself leaves zero live streams. -/
theorem slot_single_stream (s : SlotState) (h : SlotReachable s) :
    s.live.length ≤ 1 ∧
    (s.phase = SlotPhase.awaiting →
      s.streamRef = none ∧ s.sink = none ∧ s.live = []) ∧
    (s.mounted = false →
      (resolveStream s).live = s.live ∧ (resolveStream s).sink = s.sink ∧
      (resolveStream s).streamRef = s.streamRef) ∧
    (cleanupSlot s).live = [] := by
  obtain ⟨hpend, href, hsink⟩ := slotInv_of_reachable h
  refine ⟨?_, hpend, ?_, ?_⟩
  · cases hr : s.streamRef with
    | none => rw [hr] at href; simp [href]
    | some t => rw [hr] at href; simp [href]
  · intro hm
    refine ⟨?_, ?_, ?_⟩ <;> simp [resolveStream, hm]
  · cases hr : s.streamRef with
    | none => rw [hr] at href; simp [cleanupSlot, hr, href]
    | some t => rw [hr] at href; simp [cleanupSlot, hr, href, List.erase_cons]

/-- Claim C4 witness: after teardown of a freshly mounted slot, no stream is
live, and a getUserMedia promise resolving after that teardown attaches
nothing to the sink. -/
theorem slot_single_stream_witness :
    (cleanupSlot initSlot).live.length ≤ 1 ∧
    (resolveStream (cleanupSlot initSlot)).sink = (cleanupSlot initSlot).sink ∧
    (cleanupSlot (cleanupSlot initSlot)).live = [] :=
  ⟨(slot_single_stream (cleanupSlot initSlot)
      (SlotReachable.teardown SlotReachable.init)).1,
   ((slot_single_stream (cleanupSlot initSlot)
      (SlotReachable.teardown SlotReachable.init)).2.2.1 rfl).2.1,
   (slot_single_stream (cleanupSlot initSlot)
      (SlotReachable.teardown SlotReachable.init)).2.2.2⟩

end Dartomatic
